import Mathlib

/-!
Verification of the running-verdict notification service.

The service code (a Vercel serverless function with several near-identical
variants) is embedded shallowly:

* JS numbers that pass a `Number.isFinite` guard are modelled as `ℚ`;
  a value that is absent (`null`/`undefined`) or non-finite is `none` in
  `Option ℚ`, since the code treats those two situations identically
  (every use is guarded by `Number.isFinite` or by a comparison that is
  false for `null`/`NaN`).
* `Math.round` is `jsRound` (floor of `x + 1/2`, which is exactly the JS
  semantics for all inputs).
* JS string truthiness (`if (catStr)`, `if (!topic)`) is `jsStrTruthy`.
* Arrays are `List`s; out-of-range element access yields `none`.
-/

namespace RunningVerdict

/-- JS `Math.round`: round half toward positive infinity. -/
def jsRound (q : ℚ) : ℤ := ⌊q + 1/2⌋

/-- JS `t.startsWith(pre)`: code-unit prefix test, modelled on the
character lists of the two strings (same semantics as
`String.startsWith`, in a form the kernel can evaluate). -/
def jsStartsWith (t pre : String) : Bool := pre.data.isPrefixOf t.data

/-- JS truthiness of an optional string: present and nonempty. -/
def jsStrTruthy (s : Option String) : Bool :=
  match s with
  | some str => !str.isEmpty
  | none => false

/-- The verdict record returned by `verdictForAsthma`. -/
structure Verdict where
  icon : String
  text : String
deriving DecidableEq

/-- JS `Number.isFinite(v) && v >= t` for an optional value `v`. -/
def finGe (v : Option ℚ) (t : ℚ) : Bool :=
  match v with
  | some x => decide (t ≤ x)
  | none => false

/-- `verdictForAsthma` from `src/api/run-verdict.js` (identical logic in the
unnamed variants: an unguarded `aqi >= 101` in JS is also false for
`null`/`undefined`/`NaN`, so all variants compute the same function). -/
def verdictForAsthma (tempC rh windKmh aqi : Option ℚ) : Verdict :=
  if finGe aqi 101 then ⟨"🔴", "Indoor only"⟩
  else if finGe aqi 51 then
    if finGe tempC 32 then ⟨"🔴", "Indoor only"⟩ else ⟨"🟡", "Caution"⟩
  else if finGe tempC 32 then ⟨"🔴", "Indoor only"⟩
  else if finGe tempC 28 || finGe rh 75 then ⟨"🟡", "Caution"⟩
  else ⟨"🟢", "Safe to run"⟩

/-- `aqiCategoryFromNumber` from `src/api/run-verdict.js`. -/
def aqiCategoryFromNumber (aqiVal : Option ℚ) : String :=
  match aqiVal with
  | none => "Unknown"
  | some v =>
    if v ≤ 50 then "Good"
    else if v ≤ 100 then "Moderate"
    else if v ≤ 150 then "Unhealthy for Sensitive Groups"
    else if v ≤ 200 then "Unhealthy"
    else if v ≤ 300 then "Very Unhealthy"
    else "Hazardous"

/-- `aqiCategory(catStr, aqiVal)` from the variant with
`epa_health_concern` labels: `if (catStr) return catStr;` then the same
numeric thresholds as `aqiCategoryFromNumber`, verbatim. -/
def aqiCategory (catStr : Option String) (aqiVal : Option ℚ) : String :=
  if jsStrTruthy catStr then catStr.getD ("") else aqiCategoryFromNumber aqiVal

/-- PM2.5 EPA breakpoints `[C_low, C_high, I_low, I_high]`. -/
def PM25 : List (ℚ × ℚ × ℚ × ℚ) :=
  [(0, 12, 0, 50),
   (12.1, 35.4, 51, 100),
   (35.5, 55.4, 101, 150),
   (55.5, 150.4, 151, 200),
   (150.5, 250.4, 201, 300),
   (250.5, 350.4, 301, 400),
   (350.5, 500.4, 401, 500)]

/-- PM10 EPA breakpoints `[C_low, C_high, I_low, I_high]`. -/
def PM10 : List (ℚ × ℚ × ℚ × ℚ) :=
  [(0, 54, 0, 50),
   (55, 154, 51, 100),
   (155, 254, 101, 150),
   (255, 354, 151, 200),
   (355, 424, 201, 300),
   (425, 504, 301, 400),
   (505, 604, 401, 500)]

/-- `pollutant === "pm10" ? PM10 : PM25`. -/
def tableFor (pollutant : String) : List (ℚ × ℚ × ℚ × ℚ) :=
  if pollutant = ("pm10") then PM10 else PM25

/-- The breakpoint-scanning loop of `usAqiFromConcentration`: first row whose
range contains the concentration wins, rounded linear interpolation there;
`500` when the loop falls through. -/
def lookupTable (c : ℚ) : List (ℚ × ℚ × ℚ × ℚ) → ℤ
  | [] => 500
  | (Cl, Ch, Il, Ih) :: rest =>
    if Cl ≤ c ∧ c ≤ Ch then jsRound ((Ih - Il) / (Ch - Cl) * (c - Cl) + Il)
    else lookupTable c rest

/-- `usAqiFromConcentration(conc, pollutant)`: `null` for a non-finite
concentration, otherwise the table scan. -/
def usAqiFromConcentration (conc : Option ℚ) (pollutant : String) : Option ℤ :=
  match conc with
  | none => none
  | some c => some (lookupTable c (tableFor pollutant))

/-- The AQI selection in the concentration-based handler variant:
`Number.isFinite(aqiFromPm25) ? aqiFromPm25 : aqiFromPm10` (a non-`null`
result of `usAqiFromConcentration` is always finite). -/
def selectAqi (pm25 pm10 : Option ℚ) : Option ℤ :=
  match usAqiFromConcentration pm25 ("pm25") with
  | some v => some v
  | none => usAqiFromConcentration pm10 ("pm10")

/-- The `hourly` payload of the air-quality response, as `findNearestAqi`
reads it (`time` and `us_aqi` parallel arrays; a missing array is `[]`). -/
structure AqHourly where
  time : List String
  us_aqi : List (Option ℚ)
deriving DecidableEq

/-- Result record of `findNearestAqi`. -/
structure AqiResult where
  aqi : Option ℚ
  category : String
deriving DecidableEq

/-- `hasVal(i)` from `findNearestAqi`:
`i >= 0 && i < aqiArr.length && Number.isFinite(aqiArr[i])`
(out-of-range JS access yields `undefined`, i.e. `none`). -/
def hasVal (aqiArr : List (Option ℚ)) (i : ℤ) : Bool :=
  decide (0 ≤ i) && decide (i < (aqiArr.length : ℤ)) && (aqiArr.getD i.toNat none).isSome

/-- The backward loop `for (let i = start; i >= 0; i--) if (hasVal(i)) ...`:
first index with a usable value, scanning `start, start-1, ..., 0`. -/
def scanBackNat (aqiArr : List (Option ℚ)) : ℕ → Option ℕ
  | 0 => if (aqiArr.getD 0 none).isSome then some 0 else none
  | n + 1 =>
    if (aqiArr.getD (n + 1) none).isSome then some (n + 1) else scanBackNat aqiArr n

/-- The forward loop `for (let i = start; i < times.length; i++)
if (hasVal(i)) ...`: first index in `[start, timesLen)` with a usable value. -/
def scanFwdNat (aqiArr : List (Option ℚ)) (timesLen : ℕ) (i : ℕ) : Option ℕ :=
  if i < timesLen then
    if (aqiArr.getD i none).isSome then some i else scanFwdNat aqiArr timesLen (i + 1)
  else none
termination_by timesLen - i

/-- `findNearestAqi(aqJson, targetISO)` from `src/api/run-verdict.js`:
exact index by timestamp prefix (`-1` sentinel when no match), then
backward scan, then forward scan from `max(exactIdx + 1, 0)` bounded by
`times.length`. -/
def findNearestAqi (aq : AqHourly) (target : String) : AqiResult :=
  let times := aq.time
  let aqiArr := aq.us_aqi
  let exactIdx : ℤ :=
    match times.findIdx? (fun t => jsStartsWith t target) with
    | some n => (n : ℤ)
    | none => -1
  if hasVal aqiArr exactIdx then
    ⟨aqiArr.getD exactIdx.toNat none, aqiCategoryFromNumber (aqiArr.getD exactIdx.toNat none)⟩
  else
    match (if 0 ≤ exactIdx - 1 then scanBackNat aqiArr (exactIdx - 1).toNat else none) with
    | some i => ⟨aqiArr.getD i none, aqiCategoryFromNumber (aqiArr.getD i none)⟩
    | none =>
      match scanFwdNat aqiArr times.length (max (exactIdx + 1) 0).toNat with
      | some i => ⟨aqiArr.getD i none, aqiCategoryFromNumber (aqiArr.getD i none)⟩
      | none => ⟨none, "Unknown"⟩

/-- The `hourly` payload of the weather response. -/
structure WHourly where
  time : List String
  temperature_2m : List (Option ℚ)
  relative_humidity_2m : List (Option ℚ)
  wind_speed_10m : List (Option ℚ)
deriving DecidableEq

/-- An upstream HTTP response: `ok` flag plus parsed JSON body. -/
structure Response (α : Type) where
  ok : Bool
  body : α
deriving DecidableEq

/-- Observable outcome of one handler invocation: the HTTP-level success
flag, the message of the 200 response (when any), and the body actually
POSTed to the ntfy push endpoint (`none` when the push was never reached). -/
structure HandlerOut where
  ok : Bool
  message : Option String
  pushedBody : Option String
deriving DecidableEq

/-- `fmt(n, 0)`: `toFixed(0)` for a finite number (round half up, as JS
does for fraction 0 digits), `"NA"` otherwise. -/
def fmt (n : Option ℚ) : String :=
  match n with
  | some q => toString (jsRound q)
  | none => "NA"

/-- The notification line built by the handler of `src/api/run-verdict.js`. -/
def buildLine (verdict : Verdict) (tempC rh windKmh aqi : Option ℚ) (aqiCat : String) : String :=
  let aqiText :=
    match aqi with
    | some _ => fmt aqi ++ (" (") ++ aqiCat ++ (")")
    | none => "NA"
  "🌅 Good morning, Nitay! 🏃‍♂️ " ++ verdict.icon ++ " " ++ verdict.text ++
    " • 🌡️ " ++ fmt tempC ++ "°C • 💧 " ++ fmt rh ++ "% • 💨 " ++ fmt windKmh ++
    " km/h • 🌫️ AQI " ++ aqiText

/-- The handler of `src/api/run-verdict.js`, with I/O at its boundary made
explicit: the topic environment variable, the two fetched upstream
responses, and whether the ntfy POST succeeds. Mirrors the source order:
missing-topic throw, weather `ok` check, air-quality `ok` check, scalar
extraction at the target hour, AQI resolution, verdict, line, push. -/
def runHandler (topic : Option String) (target : String)
    (wRes : Response WHourly) (aqRes : Response AqHourly) (pushOk : Bool) : HandlerOut :=
  if !jsStrTruthy topic then ⟨false, none, none⟩
  else if !wRes.ok then ⟨false, none, none⟩
  else if !aqRes.ok then ⟨false, none, none⟩
  else
    let w := wRes.body
    let idx := w.time.findIdx? (fun t => jsStartsWith t target)
    let tempC := match idx with | some i => w.temperature_2m.getD i none | none => none
    let rh := match idx with | some i => w.relative_humidity_2m.getD i none | none => none
    let windMs := match idx with | some i => w.wind_speed_10m.getD i none | none => none
    let windKmh := match windMs with | some v => some (v * 3.6) | none => none
    let resAqi := findNearestAqi aqRes.body target
    let verdict := verdictForAsthma tempC rh windKmh resAqi.aqi
    let line := buildLine verdict tempC rh windKmh resAqi.aqi resAqi.category
    if pushOk then ⟨true, some line, some line⟩ else ⟨false, none, some line⟩

/-- Modelled from the spec (for the refinement claim about
`findNearestAqi`): the order in which the nearest-valid-hour fallback
visits indices — the exact match first, then one step at a time backward
toward the start, then forward from the position after the target to the
end; all of `0..len-1` forward when no timestamp matches. -/
def specScanOrder (exact : Option ℕ) (len : ℕ) : List ℕ :=
  match exact with
  | some n => n :: ((List.range n).reverse ++ List.range' (n + 1) (len - (n + 1)))
  | none => List.range len

/-- Modelled from the spec (for the refinement claim about
`findNearestAqi`): return the value and category at the first index of
`specScanOrder` holding a usable (present, finite) value; absent/Unknown
when there is none. -/
def findNearestAqiSpec (aq : AqHourly) (target : String) : AqiResult :=
  let exact := aq.time.findIdx? (fun t => jsStartsWith t target)
  match (specScanOrder exact aq.time.length).find?
      (fun i => (aq.us_aqi.getD i none).isSome) with
  | some i => ⟨aq.us_aqi.getD i none, aqiCategoryFromNumber (aq.us_aqi.getD i none)⟩
  | none => ⟨none, "Unknown"⟩

/-! ## Verdict engine claims -/

/-- A present value at or above the threshold triggers `finGe`. -/
lemma finGe_some {x t : ℚ} (h : t ≤ x) : finGe (some x) t = true := by
  simp [finGe, h]

/-- A present value below the threshold does not trigger `finGe`. -/
lemma finGe_some_neg {x t : ℚ} (h : x < t) : finGe (some x) t = false := by
  simp [finGe]
  linarith

/-- An absent value never triggers `finGe`. -/
lemma finGe_none (t : ℚ) : finGe none t = false := rfl

/-- Claim C1: with a present (finite) AQI of at least 101 the verdict is the
severe one regardless of the other inputs; with a present AQI in `[51,100]`
the verdict is severe when the temperature is present and at least 32 °C and
the caution one otherwise (temperature below 32 °C or absent). -/
theorem claim_C1 (t r w : Option ℚ) (a : ℚ) :
    (101 ≤ a → verdictForAsthma t r w (some a) = ⟨"🔴", "Indoor only"⟩) ∧
    (51 ≤ a → a ≤ 100 →
      ((∃ tv, t = some tv ∧ 32 ≤ tv) →
        verdictForAsthma t r w (some a) = ⟨"🔴", "Indoor only"⟩) ∧
      ((∀ tv, t = some tv → tv < 32) →
        verdictForAsthma t r w (some a) = ⟨"🟡", "Caution"⟩)) := by
  constructor
  · intro h
    simp [verdictForAsthma, finGe_some h]
  · intro h1 h2
    have hq101 : finGe (some a) 101 = false := finGe_some_neg (by linarith)
    constructor
    · rintro ⟨tv, rfl, htv⟩
      simp [verdictForAsthma, hq101, finGe_some h1, finGe_some htv]
    · intro ht
      rcases t with _ | tv
      · simp [verdictForAsthma, hq101, finGe_some h1, finGe_none]
      · simp [verdictForAsthma, hq101, finGe_some h1, finGe_some_neg (ht tv rfl)]

/-- Claim C1 witness: the three branches at concrete inputs. -/
theorem claim_C1_witness :
    verdictForAsthma none none none (some 120) = ⟨"🔴", "Indoor only"⟩ ∧
    verdictForAsthma (some 35) none none (some 60) = ⟨"🔴", "Indoor only"⟩ ∧
    verdictForAsthma (some 20) (some 99) (some 40) (some 60) = ⟨"🟡", "Caution"⟩ :=
  ⟨(claim_C1 none none none 120).1 (by norm_num),
   ((claim_C1 (some 35) none none 60).2 (by norm_num) (by norm_num)).1
     ⟨35, rfl, by norm_num⟩,
   ((claim_C1 (some 20) (some 99) (some 40) 60).2 (by norm_num) (by norm_num)).2
     (by rintro tv ⟨rfl⟩; norm_num)⟩

/-- Claim C2: with the AQI absent or below 51, a present temperature of at
least 32 °C gives the severe verdict; otherwise a present temperature of at
least 28 °C or a present humidity of at least 75 % gives the caution
verdict; otherwise the safe verdict. Absent values never satisfy a
threshold, so with every input absent the verdict is safe. -/
theorem claim_C2 (t r w aq : Option ℚ) (haq : ∀ a, aq = some a → a < 51) :
    ((∃ tv, t = some tv ∧ 32 ≤ tv) →
      verdictForAsthma t r w aq = ⟨"🔴", "Indoor only"⟩) ∧
    ((∀ tv, t = some tv → tv < 32) →
      ((∃ tv, t = some tv ∧ 28 ≤ tv) ∨ (∃ rv, r = some rv ∧ 75 ≤ rv) →
        verdictForAsthma t r w aq = ⟨"🟡", "Caution"⟩)) ∧
    ((∀ tv, t = some tv → tv < 28) → (∀ rv, r = some rv → rv < 75) →
      verdictForAsthma t r w aq = ⟨"🟢", "Safe to run"⟩) := by
  have hq101 : finGe aq 101 = false := by
    rcases aq with _ | a
    · rfl
    · exact finGe_some_neg (by have := haq a rfl; linarith)
  have hq51 : finGe aq 51 = false := by
    rcases aq with _ | a
    · rfl
    · exact finGe_some_neg (by have := haq a rfl; linarith)
  refine ⟨?_, ?_, ?_⟩
  · rintro ⟨tv, rfl, htv⟩
    simp [verdictForAsthma, hq101, hq51, finGe_some htv]
  · intro ht32 hcase
    have ht32b : finGe t 32 = false := by
      rcases t with _ | tv
      · rfl
      · exact finGe_some_neg (ht32 tv rfl)
    rcases hcase with ⟨tv, rfl, htv⟩ | ⟨rv, rfl, hrv⟩
    · simp [verdictForAsthma, hq101, hq51, ht32b, finGe_some htv]
    · simp [verdictForAsthma, hq101, hq51, ht32b, finGe_some hrv]
  · intro ht28 hr75
    have ht32b : finGe t 32 = false := by
      rcases t with _ | tv
      · rfl
      · exact finGe_some_neg (by have := ht28 tv rfl; linarith)
    have ht28b : finGe t 28 = false := by
      rcases t with _ | tv
      · rfl
      · exact finGe_some_neg (ht28 tv rfl)
    have hr75b : finGe r 75 = false := by
      rcases r with _ | rv
      · rfl
      · exact finGe_some_neg (hr75 rv rfl)
    simp [verdictForAsthma, hq101, hq51, ht32b, ht28b, hr75b]

/-- Claim C2 witness: the branches at concrete inputs, including the
all-absent safe default. -/
theorem claim_C2_witness :
    verdictForAsthma none none none none = ⟨"🟢", "Safe to run"⟩ ∧
    verdictForAsthma (some 33) none none none = ⟨"🔴", "Indoor only"⟩ ∧
    verdictForAsthma (some 29) none none (some 40) = ⟨"🟡", "Caution"⟩ ∧
    verdictForAsthma (some 20) (some 80) none none = ⟨"🟡", "Caution"⟩ :=
  ⟨(claim_C2 none none none none (by rintro a ⟨⟩)).2.2
      (by rintro tv ⟨⟩) (by rintro rv ⟨⟩),
   (claim_C2 (some 33) none none none (by rintro a ⟨⟩)).1 ⟨33, rfl, by norm_num⟩,
   ((claim_C2 (some 29) none none (some 40)
        (by rintro a ⟨rfl⟩; norm_num)).2.1
      (by rintro tv ⟨rfl⟩; norm_num)) (Or.inl ⟨29, rfl, by norm_num⟩),
   ((claim_C2 (some 20) (some 80) none none (by rintro a ⟨⟩)).2.1
      (by rintro tv ⟨rfl⟩; norm_num)) (Or.inr ⟨80, rfl, by norm_num⟩)⟩

/-- Claim C9: the verdict is independent of the wind input. -/
theorem claim_C9 (t r a w1 w2 : Option ℚ) :
    verdictForAsthma t r w1 a = verdictForAsthma t r w2 a := rfl

/-! ## Category mapping claim -/

/-- Claim C6: a nonempty authoritative label is returned verbatim; with no
label the category is derived from the numeric AQI by the fixed thresholds,
and an absent (or non-finite, which the code treats identically) AQI yields
Unknown. -/
theorem claim_C6 (s : String) (hs : s.isEmpty = false) (a : Option ℚ) (v : ℚ) :
    aqiCategory (some s) a = s ∧
    aqiCategory none none = "Unknown" ∧
    (v ≤ 50 → aqiCategory none (some v) = "Good") ∧
    (50 < v → v ≤ 100 → aqiCategory none (some v) = "Moderate") ∧
    (100 < v → v ≤ 150 →
      aqiCategory none (some v) = "Unhealthy for Sensitive Groups") ∧
    (150 < v → v ≤ 200 → aqiCategory none (some v) = "Unhealthy") ∧
    (200 < v → v ≤ 300 → aqiCategory none (some v) = "Very Unhealthy") ∧
    (300 < v → aqiCategory none (some v) = "Hazardous") := by
  refine ⟨?_, rfl, ?_, ?_, ?_, ?_, ?_, ?_⟩
  · simp [aqiCategory, jsStrTruthy, hs]
  · intro h
    simp [aqiCategory, jsStrTruthy, aqiCategoryFromNumber, h]
  · intro h1 h2
    simp [aqiCategory, jsStrTruthy, aqiCategoryFromNumber, not_le.mpr h1, h2]
  · intro h1 h2
    have n50 : ¬(v ≤ 50) := by linarith
    simp [aqiCategory, jsStrTruthy, aqiCategoryFromNumber, n50, not_le.mpr h1, h2]
  · intro h1 h2
    have n50 : ¬(v ≤ 50) := by linarith
    have n100 : ¬(v ≤ 100) := by linarith
    simp [aqiCategory, jsStrTruthy, aqiCategoryFromNumber, n50, n100,
      not_le.mpr h1, h2]
  · intro h1 h2
    have n50 : ¬(v ≤ 50) := by linarith
    have n100 : ¬(v ≤ 100) := by linarith
    have n150 : ¬(v ≤ 150) := by linarith
    simp [aqiCategory, jsStrTruthy, aqiCategoryFromNumber, n50, n100, n150,
      not_le.mpr h1, h2]
  · intro h1
    have n50 : ¬(v ≤ 50) := by linarith
    have n100 : ¬(v ≤ 100) := by linarith
    have n150 : ¬(v ≤ 150) := by linarith
    have n200 : ¬(v ≤ 200) := by linarith
    simp [aqiCategory, jsStrTruthy, aqiCategoryFromNumber, n50, n100, n150,
      n200, not_le.mpr h1]

/-- Claim C6 witness: the documented boundary examples. -/
theorem claim_C6_witness :
    aqiCategory (some ("Moderate")) (some 500) = "Moderate" ∧
    aqiCategory none (some 50) = "Good" ∧
    aqiCategory none (some 51) = "Moderate" ∧
    aqiCategory none (some 300) = "Very Unhealthy" ∧
    aqiCategory none (some 301) = "Hazardous" ∧
    aqiCategory none none = "Unknown" :=
  ⟨(claim_C6 ("Moderate") (by decide) (some 500) 0).1,
   (claim_C6 ("x") (by decide) none 50).2.2.1 (by norm_num),
   (claim_C6 ("x") (by decide) none 51).2.2.2.1 (by norm_num) (by norm_num),
   ((claim_C6 ("x") (by decide) none 300).2.2.2.2.2.2.1 (by norm_num) (by norm_num)),
   ((claim_C6 ("x") (by decide) none 301).2.2.2.2.2.2.2 (by norm_num)),
   (claim_C6 ("x") (by decide) none 0).2.1⟩

/-! ## PM2.5-preference claim -/

/-- Claim C7: whenever the PM2.5 concentration is available its derived AQI
is the resolved one; the PM10-derived AQI is used exactly when PM2.5 is
unavailable; and the resolved AQI is absent exactly when both are. -/
theorem claim_C7 (pm25 pm10 : Option ℚ) :
    (∀ c, pm25 = some c →
      selectAqi pm25 pm10 = usAqiFromConcentration pm25 ("pm25")) ∧
    (pm25 = none →
      selectAqi pm25 pm10 = usAqiFromConcentration pm10 ("pm10")) ∧
    (selectAqi pm25 pm10 = none ↔ pm25 = none ∧ pm10 = none) := by
  refine ⟨?_, ?_, ?_⟩
  · rintro c rfl
    simp [selectAqi, usAqiFromConcentration]
  · rintro rfl
    simp [selectAqi, usAqiFromConcentration]
  · cases pm25 <;> cases pm10 <;>
      simp [selectAqi, usAqiFromConcentration]

/-- Claim C7 witness: PM2.5 preferred when both present; PM10 fallback;
absent only when both absent. -/
theorem claim_C7_witness :
    selectAqi (some 30) (some 100) = usAqiFromConcentration (some 30) ("pm25") ∧
    selectAqi none (some 100) = usAqiFromConcentration (some 100) ("pm10") ∧
    selectAqi none none = none :=
  ⟨(claim_C7 (some 30) (some 100)).1 30 rfl,
   (claim_C7 none (some 100)).2.1 rfl,
   (claim_C7 none none).2.2.mpr ⟨rfl, rfl⟩⟩

/-! ## Handler error-handling claim -/

/-- Claim C8: when either upstream fetch returns a non-success response the
invocation fails — the result is not ok, no message is returned, and
nothing is ever pushed to the notification endpoint. -/
theorem claim_C8 (topic : Option String) (target : String)
    (wRes : Response WHourly) (aqRes : Response AqHourly) (pushOk : Bool)
    (h : wRes.ok = false ∨ aqRes.ok = false) :
    (runHandler topic target wRes aqRes pushOk).ok = false ∧
    (runHandler topic target wRes aqRes pushOk).message = none ∧
    (runHandler topic target wRes aqRes pushOk).pushedBody = none := by
  rcases h with h | h <;>
    cases htw : jsStrTruthy topic <;>
      simp [runHandler, h, htw]

/-- Claim C8 witness: a failed weather fetch and a failed air-quality fetch
at concrete inputs. -/
theorem claim_C8_witness :
    (runHandler (some ("topic")) ("2024-01-01T06:00")
        ⟨false, ⟨[], [], [], []⟩⟩ ⟨true, ⟨[], []⟩⟩ true).pushedBody = none ∧
    (runHandler (some ("topic")) ("2024-01-01T06:00")
        ⟨true, ⟨[], [], [], []⟩⟩ ⟨false, ⟨[], []⟩⟩ true).ok = false :=
  ⟨(claim_C8 (some ("topic")) ("2024-01-01T06:00")
      ⟨false, ⟨[], [], [], []⟩⟩ ⟨true, ⟨[], []⟩⟩ true (Or.inl rfl)).2.2,
   (claim_C8 (some ("topic")) ("2024-01-01T06:00")
      ⟨true, ⟨[], [], [], []⟩⟩ ⟨false, ⟨[], []⟩⟩ true (Or.inr rfl)).1⟩

/-! ## Breakpoint-table helper lemmas -/

/-- `jsRound` is monotone. -/
lemma jsRound_mono {a b : ℚ} (h : a ≤ b) : jsRound a ≤ jsRound b :=
  Int.floor_le_floor (by linarith)

/-- An integer lower bound on the argument bounds `jsRound` below. -/
lemma jsRound_ge {n : ℤ} {a : ℚ} (h : (n : ℚ) ≤ a) : n ≤ jsRound a :=
  Int.le_floor.mpr (by push_cast; linarith)

/-- An integer upper bound on the argument bounds `jsRound` above. -/
lemma jsRound_le {n : ℤ} {a : ℚ} (h : a ≤ (n : ℚ)) : jsRound a ≤ n := by
  have h2 : jsRound a < n + 1 := Int.floor_lt.mpr (by push_cast; linarith)
  omega

/-- Scanning step: a matching head row yields its interpolated value. -/
lemma lookup_cons_pos (c Cl Ch Il Ih : ℚ) (rest : List (ℚ × ℚ × ℚ × ℚ))
    (h : Cl ≤ c ∧ c ≤ Ch) :
    lookupTable c ((Cl, Ch, Il, Ih) :: rest) =
      jsRound ((Ih - Il) / (Ch - Cl) * (c - Cl) + Il) := by
  simp only [lookupTable]
  rw [if_pos h]

/-- Scanning step: a non-matching head row is skipped. -/
lemma lookup_cons_neg (c Cl Ch Il Ih : ℚ) (rest : List (ℚ × ℚ × ℚ × ℚ))
    (h : ¬(Cl ≤ c ∧ c ≤ Ch)) :
    lookupTable c ((Cl, Ch, Il, Ih) :: rest) = lookupTable c rest := by
  simp only [lookupTable]
  rw [if_neg h]

/-- When no row of the table contains the concentration, the scan falls
through to the saturation value 500. -/
lemma lookup_no_match (c : ℚ) (T : List (ℚ × ℚ × ℚ × ℚ))
    (h : ∀ Cl Ch Il Ih : ℚ, (Cl, Ch, Il, Ih) ∈ T → ¬(Cl ≤ c ∧ c ≤ Ch)) :
    lookupTable c T = 500 := by
  induction T with
  | nil => rfl
  | cons head rest ih =>
    obtain ⟨Cl, Ch, Il, Ih⟩ := head
    rw [lookup_cons_neg c Cl Ch Il Ih rest (h Cl Ch Il Ih (List.mem_cons_self _ _))]
    exact ih (fun a b d e hm => h a b d e (List.mem_cons_of_mem _ hm))

/-- Evaluation of the scan when the concentration lies in a PM2.5 row:
the rows are pairwise disjoint, so that row's interpolation is returned. -/
lemma eval_pm25 {c Cl Ch Il Ih : ℚ} (hmem : (Cl, Ch, Il, Ih) ∈ PM25)
    (h1 : Cl ≤ c) (h2 : c ≤ Ch) :
    lookupTable c PM25 = jsRound ((Ih - Il) / (Ch - Cl) * (c - Cl) + Il) := by
  simp only [PM25, List.mem_cons, List.not_mem_nil, or_false, Prod.mk.injEq] at hmem
  rcases hmem with ⟨rfl, rfl, rfl, rfl⟩ | ⟨rfl, rfl, rfl, rfl⟩ | ⟨rfl, rfl, rfl, rfl⟩ |
    ⟨rfl, rfl, rfl, rfl⟩ | ⟨rfl, rfl, rfl, rfl⟩ | ⟨rfl, rfl, rfl, rfl⟩ | ⟨rfl, rfl, rfl, rfl⟩
  · simp only [PM25]
    rw [lookup_cons_pos c 0 12 0 50 _ ⟨h1, h2⟩]
  · simp only [PM25]
    rw [lookup_cons_neg c 0 12 0 50 _ (by rintro ⟨u, v⟩; linarith),
      lookup_cons_pos c (12.1) (35.4) 51 100 _ ⟨h1, h2⟩]
  · simp only [PM25]
    rw [lookup_cons_neg c 0 12 0 50 _ (by rintro ⟨u, v⟩; linarith),
      lookup_cons_neg c (12.1) (35.4) 51 100 _ (by rintro ⟨u, v⟩; linarith),
      lookup_cons_pos c (35.5) (55.4) 101 150 _ ⟨h1, h2⟩]
  · simp only [PM25]
    rw [lookup_cons_neg c 0 12 0 50 _ (by rintro ⟨u, v⟩; linarith),
      lookup_cons_neg c (12.1) (35.4) 51 100 _ (by rintro ⟨u, v⟩; linarith),
      lookup_cons_neg c (35.5) (55.4) 101 150 _ (by rintro ⟨u, v⟩; linarith),
      lookup_cons_pos c (55.5) (150.4) 151 200 _ ⟨h1, h2⟩]
  · simp only [PM25]
    rw [lookup_cons_neg c 0 12 0 50 _ (by rintro ⟨u, v⟩; linarith),
      lookup_cons_neg c (12.1) (35.4) 51 100 _ (by rintro ⟨u, v⟩; linarith),
      lookup_cons_neg c (35.5) (55.4) 101 150 _ (by rintro ⟨u, v⟩; linarith),
      lookup_cons_neg c (55.5) (150.4) 151 200 _ (by rintro ⟨u, v⟩; linarith),
      lookup_cons_pos c (150.5) (250.4) 201 300 _ ⟨h1, h2⟩]
  · simp only [PM25]
    rw [lookup_cons_neg c 0 12 0 50 _ (by rintro ⟨u, v⟩; linarith),
      lookup_cons_neg c (12.1) (35.4) 51 100 _ (by rintro ⟨u, v⟩; linarith),
      lookup_cons_neg c (35.5) (55.4) 101 150 _ (by rintro ⟨u, v⟩; linarith),
      lookup_cons_neg c (55.5) (150.4) 151 200 _ (by rintro ⟨u, v⟩; linarith),
      lookup_cons_neg c (150.5) (250.4) 201 300 _ (by rintro ⟨u, v⟩; linarith),
      lookup_cons_pos c (250.5) (350.4) 301 400 _ ⟨h1, h2⟩]
  · simp only [PM25]
    rw [lookup_cons_neg c 0 12 0 50 _ (by rintro ⟨u, v⟩; linarith),
      lookup_cons_neg c (12.1) (35.4) 51 100 _ (by rintro ⟨u, v⟩; linarith),
      lookup_cons_neg c (35.5) (55.4) 101 150 _ (by rintro ⟨u, v⟩; linarith),
      lookup_cons_neg c (55.5) (150.4) 151 200 _ (by rintro ⟨u, v⟩; linarith),
      lookup_cons_neg c (150.5) (250.4) 201 300 _ (by rintro ⟨u, v⟩; linarith),
      lookup_cons_neg c (250.5) (350.4) 301 400 _ (by rintro ⟨u, v⟩; linarith),
      lookup_cons_pos c (350.5) (500.4) 401 500 _ ⟨h1, h2⟩]

/-- Evaluation of the scan when the concentration lies in a PM10 row. -/
lemma eval_pm10 {c Cl Ch Il Ih : ℚ} (hmem : (Cl, Ch, Il, Ih) ∈ PM10)
    (h1 : Cl ≤ c) (h2 : c ≤ Ch) :
    lookupTable c PM10 = jsRound ((Ih - Il) / (Ch - Cl) * (c - Cl) + Il) := by
  simp only [PM10, List.mem_cons, List.not_mem_nil, or_false, Prod.mk.injEq] at hmem
  rcases hmem with ⟨rfl, rfl, rfl, rfl⟩ | ⟨rfl, rfl, rfl, rfl⟩ | ⟨rfl, rfl, rfl, rfl⟩ |
    ⟨rfl, rfl, rfl, rfl⟩ | ⟨rfl, rfl, rfl, rfl⟩ | ⟨rfl, rfl, rfl, rfl⟩ | ⟨rfl, rfl, rfl, rfl⟩
  · simp only [PM10]
    rw [lookup_cons_pos c 0 54 0 50 _ ⟨h1, h2⟩]
  · simp only [PM10]
    rw [lookup_cons_neg c 0 54 0 50 _ (by rintro ⟨u, v⟩; linarith),
      lookup_cons_pos c 55 154 51 100 _ ⟨h1, h2⟩]
  · simp only [PM10]
    rw [lookup_cons_neg c 0 54 0 50 _ (by rintro ⟨u, v⟩; linarith),
      lookup_cons_neg c 55 154 51 100 _ (by rintro ⟨u, v⟩; linarith),
      lookup_cons_pos c 155 254 101 150 _ ⟨h1, h2⟩]
  · simp only [PM10]
    rw [lookup_cons_neg c 0 54 0 50 _ (by rintro ⟨u, v⟩; linarith),
      lookup_cons_neg c 55 154 51 100 _ (by rintro ⟨u, v⟩; linarith),
      lookup_cons_neg c 155 254 101 150 _ (by rintro ⟨u, v⟩; linarith),
      lookup_cons_pos c 255 354 151 200 _ ⟨h1, h2⟩]
  · simp only [PM10]
    rw [lookup_cons_neg c 0 54 0 50 _ (by rintro ⟨u, v⟩; linarith),
      lookup_cons_neg c 55 154 51 100 _ (by rintro ⟨u, v⟩; linarith),
      lookup_cons_neg c 155 254 101 150 _ (by rintro ⟨u, v⟩; linarith),
      lookup_cons_neg c 255 354 151 200 _ (by rintro ⟨u, v⟩; linarith),
      lookup_cons_pos c 355 424 201 300 _ ⟨h1, h2⟩]
  · simp only [PM10]
    rw [lookup_cons_neg c 0 54 0 50 _ (by rintro ⟨u, v⟩; linarith),
      lookup_cons_neg c 55 154 51 100 _ (by rintro ⟨u, v⟩; linarith),
      lookup_cons_neg c 155 254 101 150 _ (by rintro ⟨u, v⟩; linarith),
      lookup_cons_neg c 255 354 151 200 _ (by rintro ⟨u, v⟩; linarith),
      lookup_cons_neg c 355 424 201 300 _ (by rintro ⟨u, v⟩; linarith),
      lookup_cons_pos c 425 504 301 400 _ ⟨h1, h2⟩]
  · simp only [PM10]
    rw [lookup_cons_neg c 0 54 0 50 _ (by rintro ⟨u, v⟩; linarith),
      lookup_cons_neg c 55 154 51 100 _ (by rintro ⟨u, v⟩; linarith),
      lookup_cons_neg c 155 254 101 150 _ (by rintro ⟨u, v⟩; linarith),
      lookup_cons_neg c 255 354 151 200 _ (by rintro ⟨u, v⟩; linarith),
      lookup_cons_neg c 355 424 201 300 _ (by rintro ⟨u, v⟩; linarith),
      lookup_cons_neg c 425 504 301 400 _ (by rintro ⟨u, v⟩; linarith),
      lookup_cons_pos c 505 604 401 500 _ ⟨h1, h2⟩]

/-- The interpolated value stays within the row's index range. -/
lemma interp_bounds {c Cl Ch Il Ih : ℚ} (hC : Cl < Ch) (hI : Il ≤ Ih)
    (h1 : Cl ≤ c) (h2 : c ≤ Ch) :
    Il ≤ (Ih - Il) / (Ch - Cl) * (c - Cl) + Il ∧
    (Ih - Il) / (Ch - Cl) * (c - Cl) + Il ≤ Ih := by
  have hpos : (0 : ℚ) < Ch - Cl := by linarith
  have hslope : (0 : ℚ) ≤ (Ih - Il) / (Ch - Cl) := div_nonneg (by linarith) hpos.le
  constructor
  · have hmn := mul_nonneg hslope (by linarith : (0 : ℚ) ≤ c - Cl)
    linarith
  · have hmul : (Ih - Il) / (Ch - Cl) * (c - Cl) ≤ (Ih - Il) / (Ch - Cl) * (Ch - Cl) :=
      mul_le_mul_of_nonneg_left (by linarith) hslope
    have hcancel : (Ih - Il) / (Ch - Cl) * (Ch - Cl) = Ih - Il :=
      div_mul_cancel₀ _ (ne_of_gt hpos)
    linarith

/-- The scan result lies in `[0, 500]` when every row is well-formed with
index range inside `[0, 500]` (the fall-through value 500 included). -/
lemma lookup_bounds (c : ℚ) (T : List (ℚ × ℚ × ℚ × ℚ))
    (h : ∀ Cl Ch Il Ih : ℚ, (Cl, Ch, Il, Ih) ∈ T →
      Cl < Ch ∧ Il ≤ Ih ∧ 0 ≤ Il ∧ Ih ≤ 500) :
    0 ≤ lookupTable c T ∧ lookupTable c T ≤ 500 := by
  induction T with
  | nil =>
    constructor
    · show (0 : ℤ) ≤ 500
      norm_num
    · show (500 : ℤ) ≤ 500
      norm_num
  | cons head rest ih =>
    obtain ⟨Cl, Ch, Il, Ih⟩ := head
    obtain ⟨hC, hI, hIl, hIh⟩ := h Cl Ch Il Ih (List.mem_cons_self _ _)
    by_cases hc : Cl ≤ c ∧ c ≤ Ch
    · rw [lookup_cons_pos c Cl Ch Il Ih rest hc]
      obtain ⟨hb1, hb2⟩ := interp_bounds hC hI hc.1 hc.2
      exact ⟨jsRound_ge (by push_cast; linarith), jsRound_le (by push_cast; linarith)⟩
    · rw [lookup_cons_neg c Cl Ch Il Ih rest hc]
      exact ih (fun a b d e hm => h a b d e (List.mem_cons_of_mem _ hm))

/-- Every PM2.5 row is well-formed with index range inside `[0, 500]`. -/
lemma pm25_sound : ∀ Cl Ch Il Ih : ℚ, (Cl, Ch, Il, Ih) ∈ PM25 →
    Cl < Ch ∧ Il ≤ Ih ∧ 0 ≤ Il ∧ Ih ≤ 500 := by
  intro Cl Ch Il Ih hmem
  simp only [PM25, List.mem_cons, List.not_mem_nil, or_false, Prod.mk.injEq] at hmem
  rcases hmem with ⟨rfl, rfl, rfl, rfl⟩ | ⟨rfl, rfl, rfl, rfl⟩ | ⟨rfl, rfl, rfl, rfl⟩ |
    ⟨rfl, rfl, rfl, rfl⟩ | ⟨rfl, rfl, rfl, rfl⟩ | ⟨rfl, rfl, rfl, rfl⟩ |
    ⟨rfl, rfl, rfl, rfl⟩ <;> norm_num

/-- Every PM10 row is well-formed with index range inside `[0, 500]`. -/
lemma pm10_sound : ∀ Cl Ch Il Ih : ℚ, (Cl, Ch, Il, Ih) ∈ PM10 →
    Cl < Ch ∧ Il ≤ Ih ∧ 0 ≤ Il ∧ Ih ≤ 500 := by
  intro Cl Ch Il Ih hmem
  simp only [PM10, List.mem_cons, List.not_mem_nil, or_false, Prod.mk.injEq] at hmem
  rcases hmem with ⟨rfl, rfl, rfl, rfl⟩ | ⟨rfl, rfl, rfl, rfl⟩ | ⟨rfl, rfl, rfl, rfl⟩ |
    ⟨rfl, rfl, rfl, rfl⟩ | ⟨rfl, rfl, rfl, rfl⟩ | ⟨rfl, rfl, rfl, rfl⟩ |
    ⟨rfl, rfl, rfl, rfl⟩ <;> norm_num

/-- `jsRound` is the identity on integers. -/
lemma jsRound_intCast (n : ℤ) : jsRound ((n : ℚ)) = n := by
  have h1 : n ≤ jsRound ((n : ℚ)) := jsRound_ge (le_refl _)
  have h2 : jsRound ((n : ℚ)) ≤ n := jsRound_le (le_refl _)
  omega

/-- The gap concentration 12.05 lies in no PM2.5 breakpoint row. -/
lemma no_match_gap : ∀ Cl Ch Il Ih : ℚ, (Cl, Ch, Il, Ih) ∈ PM25 →
    ¬(Cl ≤ (12.05 : ℚ) ∧ (12.05 : ℚ) ≤ Ch) := by
  intro Cl Ch Il Ih hmem
  simp only [PM25, List.mem_cons, List.not_mem_nil, or_false, Prod.mk.injEq] at hmem
  rcases hmem with ⟨rfl, rfl, rfl, rfl⟩ | ⟨rfl, rfl, rfl, rfl⟩ | ⟨rfl, rfl, rfl, rfl⟩ |
    ⟨rfl, rfl, rfl, rfl⟩ | ⟨rfl, rfl, rfl, rfl⟩ | ⟨rfl, rfl, rfl, rfl⟩ |
    ⟨rfl, rfl, rfl, rfl⟩ <;> rintro ⟨u, v⟩ <;> linarith

/-- The selected breakpoint table, by the code's string comparison. -/
lemma tableFor_pm10 : tableFor ("pm10") = PM10 := by simp [tableFor]

/-- Any other pollutant string selects the PM2.5 table. -/
lemma tableFor_other {p : String} (hp : ¬ p = ("pm10")) : tableFor p = PM25 := by
  simp [tableFor, hp]

/-! ## AQI-from-concentration claims -/

/-- Claim C4: a finite concentration inside a breakpoint range of its
pollutant's table maps to the rounded EPA linear interpolation over that
range; the documented boundary values PM2.5 = 12.0 → 50 and
PM2.5 = 12.1 → 51 hold; and any concentration above the top breakpoint
saturates at 500 rather than failing. -/
theorem claim_C4 :
    (∀ (p : String) (c Cl Ch Il Ih : ℚ), (Cl, Ch, Il, Ih) ∈ tableFor p →
      Cl ≤ c → c ≤ Ch →
      usAqiFromConcentration (some c) p =
        some (jsRound ((Ih - Il) / (Ch - Cl) * (c - Cl) + Il))) ∧
    usAqiFromConcentration (some 12) ("pm25") = some 50 ∧
    usAqiFromConcentration (some (12.1)) ("pm25") = some 51 ∧
    (∀ c : ℚ, (500.4 : ℚ) < c →
      usAqiFromConcentration (some c) ("pm25") = some 500) ∧
    (∀ c : ℚ, (604 : ℚ) < c →
      usAqiFromConcentration (some c) ("pm10") = some 500) := by
  refine ⟨?_, ?_, ?_, ?_, ?_⟩
  · intro p c Cl Ch Il Ih hmem h1 h2
    show some (lookupTable c (tableFor p)) = _
    by_cases hp : p = ("pm10")
    · rw [hp, tableFor_pm10] at hmem ⊢
      rw [eval_pm10 hmem h1 h2]
    · rw [tableFor_other hp] at hmem ⊢
      rw [eval_pm25 hmem h1 h2]
  · show some (lookupTable 12 (tableFor ("pm25"))) = some 50
    rw [tableFor_other (by decide)]
    rw [eval_pm25 (show ((0 : ℚ), (12 : ℚ), (0 : ℚ), (50 : ℚ)) ∈ PM25 by simp [PM25])
      (by norm_num) (by norm_num)]
    have harg : ((50 : ℚ) - 0) / (12 - 0) * (12 - 0) + 0 = ((50 : ℤ) : ℚ) := by norm_num
    rw [harg, jsRound_intCast]
  · show some (lookupTable (12.1) (tableFor ("pm25"))) = some 51
    rw [tableFor_other (by decide)]
    rw [eval_pm25
      (show ((12.1 : ℚ), (35.4 : ℚ), (51 : ℚ), (100 : ℚ)) ∈ PM25 by simp [PM25])
      (by norm_num) (by norm_num)]
    have harg : ((100 : ℚ) - 51) / (35.4 - 12.1) * ((12.1) - 12.1) + 51 = ((51 : ℤ) : ℚ) := by
      norm_num
    rw [harg, jsRound_intCast]
  · intro c hc
    show some (lookupTable c (tableFor ("pm25"))) = _
    rw [tableFor_other (by decide)]
    rw [lookup_no_match]
    intro Cl Ch Il Ih hmem
    simp only [PM25, List.mem_cons, List.not_mem_nil, or_false, Prod.mk.injEq] at hmem
    rcases hmem with ⟨rfl, rfl, rfl, rfl⟩ | ⟨rfl, rfl, rfl, rfl⟩ | ⟨rfl, rfl, rfl, rfl⟩ |
      ⟨rfl, rfl, rfl, rfl⟩ | ⟨rfl, rfl, rfl, rfl⟩ | ⟨rfl, rfl, rfl, rfl⟩ |
      ⟨rfl, rfl, rfl, rfl⟩ <;> rintro ⟨u, v⟩ <;> linarith
  · intro c hc
    show some (lookupTable c (tableFor ("pm10"))) = _
    rw [tableFor_pm10]
    rw [lookup_no_match]
    intro Cl Ch Il Ih hmem
    simp only [PM10, List.mem_cons, List.not_mem_nil, or_false, Prod.mk.injEq] at hmem
    rcases hmem with ⟨rfl, rfl, rfl, rfl⟩ | ⟨rfl, rfl, rfl, rfl⟩ | ⟨rfl, rfl, rfl, rfl⟩ |
      ⟨rfl, rfl, rfl, rfl⟩ | ⟨rfl, rfl, rfl, rfl⟩ | ⟨rfl, rfl, rfl, rfl⟩ |
      ⟨rfl, rfl, rfl, rfl⟩ <;> rintro ⟨u, v⟩ <;> linarith

/-- Claim C4 witness: the in-range interpolation applied in PM2.5 row
`[12.1, 35.4] → [51, 100]` at concentration 30. -/
theorem claim_C4_witness :
    usAqiFromConcentration (some 30) ("pm25") =
      some (jsRound ((100 - 51) / ((35.4 : ℚ) - 12.1) * (30 - 12.1) + 51)) :=
  claim_C4.1 ("pm25") 30 (12.1) (35.4) 51 100
    (by rw [tableFor_other (by decide)]; simp [PM25]) (by norm_num) (by norm_num)

/-- Claim C5 counterexample: the claim quantifies over all finite
concentrations, but a concentration in the gap between the first two PM2.5
breakpoint rows (12.05, strictly between 12.0 and 12.1) falls through the
table scan to 500, while the larger concentration 12.1 maps to 51 — so the
derivation is not monotone over all finite inputs. -/
theorem claim_C5_counterexample :
    (12.05 : ℚ) ≤ 12.1 ∧
    usAqiFromConcentration (some (12.05)) ("pm25") = some 500 ∧
    usAqiFromConcentration (some (12.1)) ("pm25") = some 51 ∧
    ¬((500 : ℤ) ≤ 51) := by
  refine ⟨by norm_num, ?_, ?_, by decide⟩
  · show some (lookupTable (12.05) (tableFor ("pm25"))) = some 500
    rw [tableFor_other (by decide), lookup_no_match]
    exact no_match_gap
  · show some (lookupTable (12.1) (tableFor ("pm25"))) = some 51
    rw [tableFor_other (by decide)]
    rw [eval_pm25
      (show ((12.1 : ℚ), (35.4 : ℚ), (51 : ℚ), (100 : ℚ)) ∈ PM25 by simp [PM25])
      (by norm_num) (by norm_num)]
    have harg : ((100 : ℚ) - 51) / (35.4 - 12.1) * ((12.1) - 12.1) + 51 = ((51 : ℤ) : ℚ) := by
      norm_num
    rw [harg, jsRound_intCast]

/-- Claim C5 (amended): AQI derivation is monotone non-decreasing in the
concentration for concentrations that each lie inside some breakpoint range
of the pollutant's table — within a single range and across range
boundaries; finite concentrations outside every range (gaps, negatives)
take the 500 fall-through value and are excluded. -/
theorem claim_C5 (p : String) (c1 c2 Cl1 Ch1 Il1 Ih1 Cl2 Ch2 Il2 Ih2 : ℚ)
    (hm1 : (Cl1, Ch1, Il1, Ih1) ∈ tableFor p)
    (hm2 : (Cl2, Ch2, Il2, Ih2) ∈ tableFor p)
    (h1l : Cl1 ≤ c1) (h1h : c1 ≤ Ch1) (h2l : Cl2 ≤ c2) (h2h : c2 ≤ Ch2)
    (h12 : c1 ≤ c2) :
    ∃ a1 a2 : ℤ, usAqiFromConcentration (some c1) p = some a1 ∧
      usAqiFromConcentration (some c2) p = some a2 ∧ a1 ≤ a2 := by
  refine ⟨lookupTable c1 (tableFor p), lookupTable c2 (tableFor p), rfl, rfl, ?_⟩
  by_cases hp : p = ("pm10")
  · rw [hp, tableFor_pm10] at hm1 hm2 ⊢
    rw [eval_pm10 hm1 h1l h1h, eval_pm10 hm2 h2l h2h]
    apply jsRound_mono
    simp only [PM10, List.mem_cons, List.not_mem_nil, or_false, Prod.mk.injEq] at hm1 hm2
    rcases hm1 with ⟨rfl, rfl, rfl, rfl⟩ | ⟨rfl, rfl, rfl, rfl⟩ | ⟨rfl, rfl, rfl, rfl⟩ |
      ⟨rfl, rfl, rfl, rfl⟩ | ⟨rfl, rfl, rfl, rfl⟩ | ⟨rfl, rfl, rfl, rfl⟩ |
      ⟨rfl, rfl, rfl, rfl⟩ <;>
    rcases hm2 with ⟨rfl, rfl, rfl, rfl⟩ | ⟨rfl, rfl, rfl, rfl⟩ | ⟨rfl, rfl, rfl, rfl⟩ |
      ⟨rfl, rfl, rfl, rfl⟩ | ⟨rfl, rfl, rfl, rfl⟩ | ⟨rfl, rfl, rfl, rfl⟩ |
      ⟨rfl, rfl, rfl, rfl⟩ <;> linarith
  · rw [tableFor_other hp] at hm1 hm2 ⊢
    rw [eval_pm25 hm1 h1l h1h, eval_pm25 hm2 h2l h2h]
    apply jsRound_mono
    simp only [PM25, List.mem_cons, List.not_mem_nil, or_false, Prod.mk.injEq] at hm1 hm2
    rcases hm1 with ⟨rfl, rfl, rfl, rfl⟩ | ⟨rfl, rfl, rfl, rfl⟩ | ⟨rfl, rfl, rfl, rfl⟩ |
      ⟨rfl, rfl, rfl, rfl⟩ | ⟨rfl, rfl, rfl, rfl⟩ | ⟨rfl, rfl, rfl, rfl⟩ |
      ⟨rfl, rfl, rfl, rfl⟩ <;>
    rcases hm2 with ⟨rfl, rfl, rfl, rfl⟩ | ⟨rfl, rfl, rfl, rfl⟩ | ⟨rfl, rfl, rfl, rfl⟩ |
      ⟨rfl, rfl, rfl, rfl⟩ | ⟨rfl, rfl, rfl, rfl⟩ | ⟨rfl, rfl, rfl, rfl⟩ |
      ⟨rfl, rfl, rfl, rfl⟩ <;> linarith

/-- Claim C5 witness: monotonicity across the first two PM2.5 rows,
10 ↦ AQI below the value 20 maps to. -/
theorem claim_C5_witness :
    ∃ a1 a2 : ℤ, usAqiFromConcentration (some 10) ("pm25") = some a1 ∧
      usAqiFromConcentration (some 20) ("pm25") = some a2 ∧ a1 ≤ a2 :=
  claim_C5 ("pm25") 10 20 0 12 0 50 (12.1) (35.4) 51 100
    (by rw [tableFor_other (by decide)]; simp [PM25])
    (by rw [tableFor_other (by decide)]; simp [PM25])
    (by norm_num) (by norm_num) (by norm_num) (by norm_num) (by norm_num)

/-- Claim C10: a finite concentration contained in no row of its pollutant's
table (negative, or in a gap between rows) yields the same saturation value
500 as concentrations above the table; every finite concentration yields an
integer in `[0, 500]`; and the result is `null` exactly for a non-finite
(absent) input. -/
theorem claim_C10 (p : String) (c : ℚ) :
    ((∀ Cl Ch Il Ih : ℚ, (Cl, Ch, Il, Ih) ∈ tableFor p → ¬(Cl ≤ c ∧ c ≤ Ch)) →
      usAqiFromConcentration (some c) p = some 500) ∧
    (∃ a : ℤ, usAqiFromConcentration (some c) p = some a ∧ 0 ≤ a ∧ a ≤ 500) ∧
    usAqiFromConcentration none p = none := by
  refine ⟨?_, ?_, rfl⟩
  · intro h
    show some (lookupTable c (tableFor p)) = _
    rw [lookup_no_match c _ h]
  · refine ⟨lookupTable c (tableFor p), rfl, ?_⟩
    by_cases hp : p = ("pm10")
    · rw [hp, tableFor_pm10]
      exact lookup_bounds c PM10 pm10_sound
    · rw [tableFor_other hp]
      exact lookup_bounds c PM25 pm25_sound

/-- Claim C10 witness: the gap concentration 12.05 saturates to 500, and an
absent concentration yields `null`. -/
theorem claim_C10_witness :
    usAqiFromConcentration (some (12.05)) ("pm25") = some 500 ∧
    usAqiFromConcentration none ("pm25") = none :=
  ⟨(claim_C10 ("pm25") (12.05)).1 (by
      intro Cl Ch Il Ih hmem
      rw [tableFor_other (by decide)] at hmem
      exact no_match_gap Cl Ch Il Ih hmem),
   (claim_C10 ("pm25") 0).2.2⟩

/-! ## Nearest-hour fallback: scan lemmas -/

/-- `hasVal` at a nonnegative index is the usable-value test (the explicit
bound check of the code coincides with out-of-range access giving `none`). -/
lemma hasVal_natCast (a : List (Option ℚ)) (n : ℕ) :
    hasVal a ((n : ℤ)) = (a.getD n none).isSome := by
  have h0 : decide ((0 : ℤ) ≤ (n : ℤ)) = true := by simp
  have h1 : ((n : ℤ)).toNat = n := Int.toNat_natCast n
  by_cases h : n < a.length
  · have h2 : decide ((n : ℤ) < (a.length : ℤ)) = true := by simpa using h
    simp only [hasVal, h0, h1, h2, Bool.true_and]
  · have h2 : decide ((n : ℤ) < (a.length : ℤ)) = false := by simpa using h
    simp only [hasVal, h0, h1, h2, Bool.true_and, Bool.false_and]
    rw [List.getD_eq_default _ _ (Nat.le_of_not_lt h)]
    rfl

/-- `hasVal` at the `-1` sentinel is false. -/
lemma hasVal_neg_one (a : List (Option ℚ)) : hasVal a (-1) = false := rfl

/-- The backward loop is the first-usable search over `[n, n-1, ..., 0]`. -/
lemma scanBack_eq (a : List (Option ℚ)) : ∀ n : ℕ,
    scanBackNat a n =
      (List.range (n + 1)).reverse.find? (fun i => (a.getD i none).isSome) := by
  intro n
  induction n with
  | zero =>
    rw [show (List.range 1).reverse = [0] from rfl]
    simp only [scanBackNat, List.find?_cons]
    cases hq : (a.getD 0 none).isSome
    · rfl
    · rfl
  | succ m ih =>
    rw [List.range_succ, List.reverse_append, List.reverse_singleton,
      List.singleton_append]
    simp only [scanBackNat, List.find?_cons]
    cases hq : (a.getD (m + 1) none).isSome
    · exact ih
    · rfl

/-- The forward loop is the first-usable search over `[i, ..., len-1]`. -/
lemma scanFwd_eq (a : List (Option ℚ)) (len : ℕ) : ∀ d i : ℕ, len - i = d →
    scanFwdNat a len i =
      (List.range' i (len - i)).find? (fun j => (a.getD j none).isSome) := by
  intro d
  induction d with
  | zero =>
    intro i h0
    have hni : ¬ i < len := by omega
    rw [scanFwdNat, if_neg hni, h0]
    rfl
  | succ m ih =>
    intro i h
    have hi : i < len := by omega
    have hm : len - (i + 1) = m := by omega
    rw [scanFwdNat, if_pos hi, h, List.range'_succ]
    simp only [List.find?_cons]
    cases hq : (a.getD i none).isSome
    · rw [ih (i + 1) hm, hm]
      rfl
    · rfl

/-- The backward phase launched from the exact index: for a matched index
`n` it is the first-usable search over `[n-1, ..., 0]` (empty for `n = 0`). -/
lemma scanBackStart (a : List (Option ℚ)) (n : ℕ) :
    (if (0 : ℤ) ≤ (n : ℤ) - 1 then scanBackNat a ((n : ℤ) - 1).toNat else none) =
      ((List.range n).reverse).find? (fun i => (a.getD i none).isSome) := by
  rcases n with _ | m
  · rw [if_neg (by omega)]
    rfl
  · rw [if_pos (by omega)]
    have ht : ((((m + 1) : ℕ) : ℤ) - 1).toNat = m := by omega
    rw [ht, scanBack_eq]

/-- The forward phase launched from the position after a matched index. -/
lemma scanFwdStart (a : List (Option ℚ)) (len n : ℕ) :
    scanFwdNat a len (max ((n : ℤ) + 1) 0).toNat =
      (List.range' (n + 1) (len - (n + 1))).find? (fun i => (a.getD i none).isSome) := by
  have hmax : (max ((n : ℤ) + 1) 0).toNat = n + 1 := by
    rw [max_eq_left (by positivity)]
    omega
  rw [hmax, scanFwd_eq a len (len - (n + 1)) (n + 1) rfl]

/-- The forward phase launched from the `-1` sentinel: a scan of the whole
index range. -/
lemma scanFwdStartNone (a : List (Option ℚ)) (len : ℕ) :
    scanFwdNat a len (max ((-1 : ℤ) + 1) 0).toNat =
      (List.range len).find? (fun i => (a.getD i none).isSome) := by
  have hmax : (max ((-1 : ℤ) + 1) 0).toNat = 0 := by decide
  rw [hmax, scanFwd_eq a len (len - 0) 0 rfl, Nat.sub_zero, ← List.range_eq_range']

/-- The loop structure of `findNearestAqi` visits exactly the indices of
`specScanOrder` and returns the first usable value, as the spec describes. -/
lemma findNearestAqi_eq_spec (aq : AqHourly) (target : String) :
    findNearestAqi aq target = findNearestAqiSpec aq target := by
  rcases hidx : aq.time.findIdx? (fun t => jsStartsWith t target) with _ | n
  · have hneg : ¬ ((0 : ℤ) ≤ -1 - 1) := by norm_num
    simp only [findNearestAqi, findNearestAqiSpec, specScanOrder, hidx, hasVal_neg_one,
      Bool.false_eq_true, if_false, hneg, scanFwdStartNone]
  · simp only [findNearestAqi, findNearestAqiSpec, specScanOrder, hidx, hasVal_natCast,
      List.find?_cons, scanBackStart, scanFwdStart, List.find?_append]
    cases hp : (aq.us_aqi.getD n none).isSome
    · cases hb : (List.range n).reverse.find? (fun i => (aq.us_aqi.getD i none).isSome)
      · rfl
      · rfl
    · rfl

/-- Claim C3: `findNearestAqi` returns the AQI at the first
prefix-matching timestamp when usable, otherwise the first usable value
scanning backward toward the start, otherwise the first usable value
scanning forward after the target (from index 0 when nothing matches), and
an absent AQI with category Unknown when no usable value exists; in
particular a usable value one hour before the target is preferred over
anything after it. -/
theorem claim_C3 (aq : AqHourly) (target : String) :
    findNearestAqi aq target = findNearestAqiSpec aq target ∧
    (∀ n m : ℕ, aq.time.findIdx? (fun t => jsStartsWith t target) = some n →
      n = m + 1 → (aq.us_aqi.getD n none).isSome = false →
      (aq.us_aqi.getD m none).isSome = true →
      (findNearestAqi aq target).aqi = aq.us_aqi.getD m none) ∧
    ((∀ i : ℕ, (aq.us_aqi.getD i none).isSome = false) →
      findNearestAqi aq target = ⟨none, "Unknown"⟩) := by
  refine ⟨findNearestAqi_eq_spec aq target, ?_, ?_⟩
  · intro n m hidx hnm hp hq
    subst hnm
    rw [findNearestAqi_eq_spec]
    simp only [findNearestAqiSpec, specScanOrder, hidx, List.find?_cons, hp,
      List.range_succ, List.reverse_append, List.reverse_singleton,
      List.singleton_append, List.cons_append, hq]
  · intro hall
    rw [findNearestAqi_eq_spec]
    have hnone : ∀ l : List ℕ,
        List.find? (fun i => (aq.us_aqi.getD i none).isSome) l = none := by
      intro l
      rw [List.find?_eq_none]
      intro x hx
      simp only [hall x]
      simp
    simp only [findNearestAqiSpec]
    rw [hnone]

/-- Claim C3 witness: a gap at the exact hour resolved by the value one
hour earlier, and an all-gaps series resolving to absent/Unknown. -/
theorem claim_C3_witness :
    (findNearestAqi ⟨["t0", "t1", "t2"], [some 1, none, some 3]⟩ ("t1")).aqi = some 1 ∧
    findNearestAqi ⟨["t0"], [none]⟩ ("t0") = ⟨none, "Unknown"⟩ :=
  ⟨(claim_C3 ⟨["t0", "t1", "t2"], [some 1, none, some 3]⟩ ("t1")).2.1 1 0
      rfl rfl rfl rfl,
   (claim_C3 ⟨["t0"], [none]⟩ ("t0")).2.2 (by
      intro i
      cases i
      · rfl
      · rfl)⟩

end RunningVerdict
